import Mathlib

/-!
Shallow embedding of the `osmxml` crate (files `src/elements.rs` and
`src/read.rs`): an OSM XML reader producing an in-memory dataset of
nodes, ways and relations.

Modelling conventions:
* The XML tokenizer (the external `xml-rs` crate) is modelled as a list of
  lexical events; `reader.next()` becomes popping the head of the list, and
  pulling on an exhausted list is an error.  The event alphabet follows
  `xml::reader::XmlEvent`: besides start/end element, processing
  instruction and end of document it contains the start-document event the
  tokenizer emits first, and a `characters` constructor standing for all
  text-like events (characters, CData, comments, whitespace), which the
  source treats uniformly through catch-all match arms.  The end-element
  event's name is dropped because the source never inspects it
  (`XmlEvent::EndElement{..}`).
* `i64` is `Int` with an explicit range check on parsing; `f64` values are
  represented exactly as `Rat` and float parsing is modelled on the plain
  decimal fragment of Rust's `f64: FromStr` grammar (sign, digits, optional
  fractional part), which covers every literal the development touches.
* `xml::reader::Error` carries a source position and a message; the
  position is elided, the message kept verbatim.  A Rust `panic!` is a
  distinct outcome (`ReadError.panicked`), not a returned error.
* `HashSet` with id-only `Eq`/`Hash`/`Borrow<i64>` is modelled as a list
  of entities with membership decided by id; `HashMap` (tag store) as an
  association list whose insert overwrites in place.
-/

/-- Lexical XML events, after `xml::reader::XmlEvent`. -/
inductive XmlEvent where
  | startDocument
  | processingInstruction (name data : String)
  | startElement (name : String) (attributes : List (String × String))
  | endElement
  | characters (s : String)
  | endDocument
deriving DecidableEq, Repr

/-- Is this event a processing instruction? -/
def XmlEvent.is_pi : XmlEvent → Bool
  | .processingInstruction _ _ => true
  | _ => false

/-- Outcome of a failed parse: an `xml::reader::Error` (source position
elided, message kept) or a Rust `panic!`. -/
inductive ReadError where
  | err (msg : String)
  | panicked (msg : String)
deriving DecidableEq, Repr

/-- Value of a decimal digit, `none` on any other character. -/
def digit_val (c : Char) : Option Nat :=
  if '0' ≤ c ∧ c ≤ '9' then some (c.toNat - 48) else none

/-- Value of a nonempty all-digit character list, `none` otherwise. -/
def dec_nat (cs : List Char) : Option Nat :=
  if cs.isEmpty then none
  else cs.foldl (fun acc c =>
    match acc, digit_val c with
    | some n, some d => some (n * 10 + d)
    | _, _ => none) (some 0)

/-- Models `<i64 as FromStr>::from_str`: optional sign, decimal digits,
64-bit range check; error messages follow `std::num::ParseIntError`. -/
def parseI64 (s : String) : Except String Int :=
  match s.data with
  | [] => .error "cannot parse integer from empty string"
  | cs =>
    let signed : Bool × List Char :=
      match cs with
      | '-' :: rest => (true, rest)
      | '+' :: rest => (false, rest)
      | _ => (false, cs)
    match dec_nat signed.2 with
    | none => .error "invalid digit found in string"
    | some n =>
      let v : Int := if signed.1 then -(n : Int) else (n : Int)
      if v < -(2 ^ 63) then .error "number too small to fit in target type"
      else if (2 ^ 63 : Int) ≤ v then .error "number too large to fit in target type"
      else .ok v

/-- Split a character list at its first dot: the part before and, when a
dot occurs, the part after it. -/
def split_dot : List Char → List Char × Option (List Char)
  | [] => ([], none)
  | c :: rest =>
    if c = '.' then ([], some rest)
    else
      let r := split_dot rest
      (c :: r.1, r.2)

/-- Models `<f64 as FromStr>::from_str` on the plain decimal fragment of
its grammar (optional sign, digits, optional dot and digits), with the
value represented exactly as a rational; anything else is the
`std::num::ParseFloatError` message. -/
def parseF64 (s : String) : Except String Rat :=
  match s.data with
  | [] => .error "cannot parse float from empty string"
  | cs =>
    let signed : Bool × List Char :=
      match cs with
      | '-' :: rest => (true, rest)
      | '+' :: rest => (false, rest)
      | _ => (false, cs)
    let parts := split_dot signed.2
    let mag : Option Rat :=
      match parts.2 with
      | none => (dec_nat parts.1).map (fun n => mkRat (n : Int) 1)
      | some fp =>
        if parts.1.isEmpty ∧ fp.isEmpty then none
        else
          match (if parts.1.isEmpty then some 0 else dec_nat parts.1),
                (if fp.isEmpty then some 0 else dec_nat fp) with
          | some i, some f =>
            some (mkRat ((i : Int) * (10 : Int) ^ fp.length + (f : Int)) (10 ^ fp.length))
          | _, _ => none
    match mag with
    | none => .error "invalid float literal"
    | some m => .ok (if signed.1 then -m else m)

/-- Models `<String as FromStr>::from_str`, which never fails. -/
def parseString (s : String) : Except String String := .ok s

/-- Tag store (`Tags(HashMap<String, String>)`): association list whose
insert overwrites an existing key in place. -/
abbrev Tags := List (String × String)

/-- `Tags::new`. -/
def Tags.new : Tags := []

/-- `Tags::insert`: overwrite the value of an existing key, else append. -/
def Tags.insert : Tags → String → String → Tags
  | [], key, value => [(key, value)]
  | (k, v) :: rest, key, value =>
    if k = key then (k, value) :: rest
    else (k, v) :: Tags.insert rest key value

/-- `Tags::get`. -/
def Tags.get : Tags → String → Option String
  | [], _ => none
  | (k, v) :: rest, key => if k = key then some v else Tags.get rest key

/-- `Tags::has`. -/
def Tags.has (t : Tags) (key : String) : Bool := (t.get key).isSome

/-- `Tags::remove`: drop the key's entry, returning the previous value. -/
def Tags.remove : Tags → String → Option String × Tags
  | [], _ => (none, [])
  | (k, v) :: rest, key =>
    if k = key then (some v, rest)
    else
      let r := Tags.remove rest key
      (r.1, (k, v) :: r.2)

/-- `elements::Node`. -/
structure Node where
  id : Int
  lat : Rat
  lon : Rat
  tags : Tags
deriving DecidableEq, Repr

/-- `Node::new`. -/
def Node.new (id : Int) (lat lon : Rat) : Node :=
  { id := id, lat := lat, lon := lon, tags := Tags.new }

/-- `Node::insert_tag`. -/
def Node.insert_tag (n : Node) (key value : String) : Node :=
  { n with tags := n.tags.insert key value }

/-- `elements::Way`. -/
structure Way where
  id : Int
  nodes : List Int
  tags : Tags
deriving DecidableEq, Repr

/-- `Way::new`. -/
def Way.new (id : Int) : Way := { id := id, nodes := [], tags := Tags.new }

/-- `Way::push_node`. -/
def Way.push_node (w : Way) (id : Int) : Way :=
  { w with nodes := w.nodes ++ [id] }

/-- `Way::insert_tag`. -/
def Way.insert_tag (w : Way) (key value : String) : Way :=
  { w with tags := w.tags.insert key value }

/-- `elements::MemberType`. -/
inductive MemberType where
  | way
  | node
  | relation
deriving DecidableEq, Repr

/-- `<MemberType as FromStr>::from_str`. -/
def MemberType.from_str (s : String) : Except String MemberType :=
  if s = "way" then .ok .way
  else if s = "node" then .ok .node
  else if s = "relation" then .ok .relation
  else .error ("invalid member type '" ++ s ++ "'")

/-- `elements::Member`. -/
structure Member where
  mtype : MemberType
  id : Int
  role : String
deriving DecidableEq, Repr

/-- `Member::new`. -/
def Member.new (mtype : MemberType) (id : Int) (role : String) : Member :=
  { mtype := mtype, id := id, role := role }

/-- `elements::Relation`. -/
structure Relation where
  id : Int
  members : List Member
  tags : Tags
deriving DecidableEq, Repr

/-- `Relation::new`. -/
def Relation.new (id : Int) : Relation :=
  { id := id, members := [], tags := Tags.new }

/-- `Relation::push_member`. -/
def Relation.push_member (r : Relation) (m : Member) : Relation :=
  { r with members := r.members ++ [m] }

/-- `Relation::insert_tag`. -/
def Relation.insert_tag (r : Relation) (key value : String) : Relation :=
  { r with tags := r.tags.insert key value }

/-- `elements::Osm`: three id-deduplicated collections.  Each `HashSet`
with id-only equality and hashing is modelled as a list of entities with
membership decided by id. -/
structure Osm where
  nodes : List Node
  ways : List Way
  relations : List Relation
deriving DecidableEq, Repr

/-- `Osm::new`. -/
def Osm.new : Osm := { nodes := [], ways := [], relations := [] }

/-- `Osm::add_node` (`HashSet::insert` with id-only equality): keeps the
first entity with a given id and reports whether a new one was added. -/
def Osm.add_node (osm : Osm) (node : Node) : Bool × Osm :=
  if osm.nodes.any (fun n => n.id == node.id) then (false, osm)
  else (true, { osm with nodes := osm.nodes ++ [node] })

/-- `Osm::add_way`. -/
def Osm.add_way (osm : Osm) (way : Way) : Bool × Osm :=
  if osm.ways.any (fun w => w.id == way.id) then (false, osm)
  else (true, { osm with ways := osm.ways ++ [way] })

/-- `Osm::add_relation`. -/
def Osm.add_relation (osm : Osm) (rel : Relation) : Bool × Osm :=
  if osm.relations.any (fun r => r.id == rel.id) then (false, osm)
  else (true, { osm with relations := osm.relations ++ [rel] })

/-- `Osm::has_node` (`HashSet::contains(&id)` through `Borrow<i64>`). -/
def Osm.has_node (osm : Osm) (id : Int) : Bool :=
  osm.nodes.any (fun n => n.id == id)

/-- `Osm::get_node` (`HashSet::get(&id)`). -/
def Osm.get_node (osm : Osm) (id : Int) : Option Node :=
  osm.nodes.find? (fun n => n.id == id)

/-- `Osm::has_way`. -/
def Osm.has_way (osm : Osm) (id : Int) : Bool :=
  osm.ways.any (fun w => w.id == id)

/-- `Osm::get_way`. -/
def Osm.get_way (osm : Osm) (id : Int) : Option Way :=
  osm.ways.find? (fun w => w.id == id)

/-- `Osm::has_relation`. -/
def Osm.has_relation (osm : Osm) (id : Int) : Bool :=
  osm.relations.any (fun r => r.id == id)

/-- `Osm::get_relation`. -/
def Osm.get_relation (osm : Osm) (id : Int) : Option Relation :=
  osm.relations.find? (fun r => r.id == id)

/-! Embedding of `src/read.rs`.  Each reader takes the remaining event list
and returns its value together with the events it did not consume. -/

/-- Result of a reader that consumes events. -/
abbrev RResult (α : Type) := Except ReadError (α × List XmlEvent)

/-- Body of `expect_any_element` for a single pulled event: a start
element's name and attributes, `none` at an end element, and the error
`"expected element"` for every other event (the `_` arm). -/
def expect_any_element_ev :
    XmlEvent → Except ReadError (Option (String × List (String × String)))
  | .startElement name attributes => .ok (some (name, attributes))
  | .endElement => .ok none
  | _ => .error (.err "expected element")

/-- `expect_any_element`: pull the next event and classify it. -/
def expect_any_element (events : List XmlEvent) :
    Except ReadError (Option (String × List (String × String)) × List XmlEvent) :=
  match events with
  | [] => .error (.err "unexpected end of stream")
  | e :: rest =>
    match expect_any_element_ev e with
    | .error er => .error er
    | .ok r => .ok (r, rest)

/-- `expect_element`: like `expect_any_element` but demands the given
name on a start element, failing with `"expected element '<elem>'"`. -/
def expect_element (events : List XmlEvent) (elem : String) :
    Except ReadError (Option (List (String × String)) × List XmlEvent) :=
  match events with
  | [] => .error (.err "unexpected end of stream")
  | .startElement name attributes :: rest =>
    if name = elem then .ok (some attributes, rest)
    else .error (.err ("expected element '" ++ elem ++ "'"))
  | .endElement :: rest => .ok (none, rest)
  | _ :: _ => .error (.err "expected element")

/-- `from_attr`: coerce a scanned attribute value, a missing attribute
being the error `"missing '<attr>' attribute"` and a coercion failure
being reported with the coercion error's own message (only).  The
`T: FromStr` parameter of the source is the explicit `parse` argument. -/
def from_attr {α : Type} (val : Option String) (attr : String)
    (parse : String → Except String α) : Except ReadError α :=
  match val with
  | some v =>
    match parse v with
    | .ok x => .ok x
    | .error e => .error (.err e)
  | none => .error (.err ("missing '" ++ attr ++ "' attribute"))

/-- The attribute loop of `read_node`: latest occurrence of each of
`id`/`lat`/`lon` wins, all other attribute names are skipped. -/
def scan_node_attrs :
    List (String × String) → Option String × Option String × Option String →
    Option String × Option String × Option String
  | [], acc => acc
  | (name, value) :: rest, (i, la, lo) =>
    if name = "id" then scan_node_attrs rest (some value, la, lo)
    else if name = "lat" then scan_node_attrs rest (i, some value, lo)
    else if name = "lon" then scan_node_attrs rest (i, la, some value)
    else scan_node_attrs rest (i, la, lo)

/-- The attribute loop of `read_way` and `read_relation`: only `id`. -/
def scan_id_attr : List (String × String) → Option String → Option String
  | [], acc => acc
  | (name, value) :: rest, i =>
    if name = "id" then scan_id_attr rest (some value)
    else scan_id_attr rest i

/-- The attribute loop of `read_tag`: `k` and `v`. -/
def scan_tag_attrs :
    List (String × String) → Option String × Option String →
    Option String × Option String
  | [], acc => acc
  | (name, value) :: rest, (k, v) =>
    if name = "k" then scan_tag_attrs rest (some value, v)
    else if name = "v" then scan_tag_attrs rest (k, some value)
    else scan_tag_attrs rest (k, v)

/-- The attribute loop of `read_nd`: only `ref`. -/
def scan_nd_attr : List (String × String) → Option String → Option String
  | [], acc => acc
  | (name, value) :: rest, i =>
    if name = "ref" then scan_nd_attr rest (some value)
    else scan_nd_attr rest i

/-- The attribute loop of `read_member`: `type`, `ref`, `role`. -/
def scan_member_attrs :
    List (String × String) → Option String × Option String × Option String →
    Option String × Option String × Option String
  | [], acc => acc
  | (name, value) :: rest, (t, r, ro) =>
    if name = "type" then scan_member_attrs rest (some value, r, ro)
    else if name = "ref" then scan_member_attrs rest (t, some value, ro)
    else if name = "role" then scan_member_attrs rest (t, r, some value)
    else scan_member_attrs rest (t, r, ro)

/-- `read_tag`: scans attributes only; consumes no events (the source
passes the reader solely for error positions). -/
def read_tag (attrs : List (String × String)) :
    Except ReadError (String × String) :=
  let s := scan_tag_attrs attrs (none, none)
  match from_attr s.1 "k" parseString with
  | .error e => .error e
  | .ok k =>
    match from_attr s.2 "v" parseString with
    | .error e => .error e
    | .ok v => .ok (k, v)

/-- `read_nd`: scans attributes only; consumes no events. -/
def read_nd (attrs : List (String × String)) : Except ReadError Int :=
  from_attr (scan_nd_attr attrs none) "ref" parseI64

/-- `read_member`: scans attributes only; consumes no events. -/
def read_member (attrs : List (String × String)) : Except ReadError Member :=
  let s := scan_member_attrs attrs (none, none, none)
  match from_attr s.1 "type" MemberType.from_str with
  | .error e => .error e
  | .ok mtype =>
    match from_attr s.2.1 "ref" parseI64 with
    | .error e => .error e
    | .ok id =>
      match from_attr s.2.2 "role" parseString with
      | .error e => .error e
      | .ok role => .ok (Member.new mtype id role)

/-- The `while let` loop of `read_node`: children named `tag` add a tag,
other names are ignored; an end element finishes the node. -/
def read_node_loop (node : Node) : List XmlEvent → RResult Node
  | [] => .error (.err "unexpected end of stream")
  | e :: rest =>
    match expect_any_element_ev e with
    | .error er => .error er
    | .ok none => .ok (node, rest)
    | .ok (some (name, attrs)) =>
      if name = "tag" then
        match read_tag attrs with
        | .error er => .error er
        | .ok kv => read_node_loop (node.insert_tag kv.1 kv.2) rest
      else read_node_loop node rest

/-- `read_node`. -/
def read_node (attrs : List (String × String)) (events : List XmlEvent) :
    RResult Node :=
  let s := scan_node_attrs attrs (none, none, none)
  match from_attr s.1 "id" parseI64 with
  | .error e => .error e
  | .ok id =>
    match from_attr s.2.1 "lat" parseF64 with
    | .error e => .error e
    | .ok lat =>
      match from_attr s.2.2 "lon" parseF64 with
      | .error e => .error e
      | .ok lon => read_node_loop (Node.new id lat lon) events

/-- The `while let` loop of `read_way`: `nd` children push a node id,
`tag` children add a tag, other names are ignored. -/
def read_way_loop (way : Way) : List XmlEvent → RResult Way
  | [] => .error (.err "unexpected end of stream")
  | e :: rest =>
    match expect_any_element_ev e with
    | .error er => .error er
    | .ok none => .ok (way, rest)
    | .ok (some (name, attrs)) =>
      if name = "nd" then
        match read_nd attrs with
        | .error er => .error er
        | .ok id => read_way_loop (way.push_node id) rest
      else if name = "tag" then
        match read_tag attrs with
        | .error er => .error er
        | .ok kv => read_way_loop (way.insert_tag kv.1 kv.2) rest
      else read_way_loop way rest

/-- `read_way`. -/
def read_way (attrs : List (String × String)) (events : List XmlEvent) :
    RResult Way :=
  match from_attr (scan_id_attr attrs none) "id" parseI64 with
  | .error e => .error e
  | .ok id => read_way_loop (Way.new id) events

/-- The `while let` loop of `read_relation`: `member` children push a
member, `tag` children add a tag, other names are ignored. -/
def read_relation_loop (rel : Relation) : List XmlEvent → RResult Relation
  | [] => .error (.err "unexpected end of stream")
  | e :: rest =>
    match expect_any_element_ev e with
    | .error er => .error er
    | .ok none => .ok (rel, rest)
    | .ok (some (name, attrs)) =>
      if name = "member" then
        match read_member attrs with
        | .error er => .error er
        | .ok m => read_relation_loop (rel.push_member m) rest
      else if name = "tag" then
        match read_tag attrs with
        | .error er => .error er
        | .ok kv => read_relation_loop (rel.insert_tag kv.1 kv.2) rest
      else read_relation_loop rel rest

/-- `read_relation`. -/
def read_relation (attrs : List (String × String)) (events : List XmlEvent) :
    RResult Relation :=
  match from_attr (scan_id_attr attrs none) "id" parseI64 with
  | .error e => .error e
  | .ok id => read_relation_loop (Relation.new id) events

/-- A successful `read_node_loop` consumes at least its terminating end
element, so strictly shrinks the event list. -/
theorem read_node_loop_length :
    ∀ (events : List XmlEvent) (node : Node) (p : Node × List XmlEvent),
    read_node_loop node events = .ok p → p.2.length < events.length := by
  intro events
  induction events with
  | nil => intro node p h; exact Except.noConfusion h
  | cons e es ih =>
    intro node p h
    rw [read_node_loop] at h
    split at h
    · exact Except.noConfusion h
    · simp only [Except.ok.injEq] at h
      subst h
      simp only [List.length_cons]
      exact Nat.lt_succ_self _
    · split at h
      · split at h
        · exact Except.noConfusion h
        · simp only [List.length_cons]
          exact Nat.lt_succ_of_lt (ih _ _ h)
      · simp only [List.length_cons]
        exact Nat.lt_succ_of_lt (ih _ _ h)

/-- A successful `read_way_loop` strictly shrinks the event list. -/
theorem read_way_loop_length :
    ∀ (events : List XmlEvent) (way : Way) (p : Way × List XmlEvent),
    read_way_loop way events = .ok p → p.2.length < events.length := by
  intro events
  induction events with
  | nil => intro way p h; exact Except.noConfusion h
  | cons e es ih =>
    intro way p h
    rw [read_way_loop] at h
    split at h
    · exact Except.noConfusion h
    · simp only [Except.ok.injEq] at h
      subst h
      simp only [List.length_cons]
      exact Nat.lt_succ_self _
    · split at h
      · split at h
        · exact Except.noConfusion h
        · simp only [List.length_cons]
          exact Nat.lt_succ_of_lt (ih _ _ h)
      · split at h
        · split at h
          · exact Except.noConfusion h
          · simp only [List.length_cons]
            exact Nat.lt_succ_of_lt (ih _ _ h)
        · simp only [List.length_cons]
          exact Nat.lt_succ_of_lt (ih _ _ h)

/-- A successful `read_relation_loop` strictly shrinks the event list. -/
theorem read_relation_loop_length :
    ∀ (events : List XmlEvent) (rel : Relation) (p : Relation × List XmlEvent),
    read_relation_loop rel events = .ok p → p.2.length < events.length := by
  intro events
  induction events with
  | nil => intro rel p h; exact Except.noConfusion h
  | cons e es ih =>
    intro rel p h
    rw [read_relation_loop] at h
    split at h
    · exact Except.noConfusion h
    · simp only [Except.ok.injEq] at h
      subst h
      simp only [List.length_cons]
      exact Nat.lt_succ_self _
    · split at h
      · split at h
        · exact Except.noConfusion h
        · simp only [List.length_cons]
          exact Nat.lt_succ_of_lt (ih _ _ h)
      · split at h
        · split at h
          · exact Except.noConfusion h
          · simp only [List.length_cons]
            exact Nat.lt_succ_of_lt (ih _ _ h)
        · simp only [List.length_cons]
          exact Nat.lt_succ_of_lt (ih _ _ h)

/-- A successful `read_node` strictly shrinks the event list. -/
theorem read_node_length {attrs : List (String × String)}
    {events : List XmlEvent} {p : Node × List XmlEvent}
    (h : read_node attrs events = .ok p) : p.2.length < events.length := by
  rw [read_node] at h
  split at h
  · exact Except.noConfusion h
  · split at h
    · exact Except.noConfusion h
    · split at h
      · exact Except.noConfusion h
      · exact read_node_loop_length _ _ _ h

/-- A successful `read_way` strictly shrinks the event list. -/
theorem read_way_length {attrs : List (String × String)}
    {events : List XmlEvent} {p : Way × List XmlEvent}
    (h : read_way attrs events = .ok p) : p.2.length < events.length := by
  rw [read_way] at h
  split at h
  · exact Except.noConfusion h
  · exact read_way_loop_length _ _ _ h

/-- A successful `read_relation` strictly shrinks the event list. -/
theorem read_relation_length {attrs : List (String × String)}
    {events : List XmlEvent} {p : Relation × List XmlEvent}
    (h : read_relation attrs events = .ok p) : p.2.length < events.length := by
  rw [read_relation] at h
  split at h
  · exact Except.noConfusion h
  · exact read_relation_loop_length _ _ _ h

/-- The loop of `read_document`: end of document returns the dataset;
a start element dispatches on its name (`node`/`way`/`relation`, anything
else ignored); every other event — including an end element — is the
error `"expected element"`. -/
def read_document_loop (res : Osm) (events : List XmlEvent) :
    Except ReadError Osm :=
  match events with
  | [] => .error (.err "unexpected end of stream")
  | .endDocument :: _ => .ok res
  | .startElement name attrs :: rest =>
    if name = "node" then
      match h : read_node attrs rest with
      | .error e => .error e
      | .ok nr => read_document_loop (res.add_node nr.1).2 nr.2
    else if name = "way" then
      match h : read_way attrs rest with
      | .error e => .error e
      | .ok wr => read_document_loop (res.add_way wr.1).2 wr.2
    else if name = "relation" then
      match h : read_relation attrs rest with
      | .error e => .error e
      | .ok rr => read_document_loop (res.add_relation rr.1).2 rr.2
    else read_document_loop res rest
  | .startDocument :: _ => .error (.err "expected element")
  | .processingInstruction _ _ :: _ => .error (.err "expected element")
  | .endElement :: _ => .error (.err "expected element")
  | .characters _ :: _ => .error (.err "expected element")
termination_by events.length
decreasing_by
  all_goals simp only [List.length_cons]
  · exact Nat.lt_succ_of_lt (read_node_length h)
  · exact Nat.lt_succ_of_lt (read_way_length h)
  · exact Nat.lt_succ_of_lt (read_relation_length h)
  · exact Nat.lt_succ_self _

/-- `read_document`: starts from an empty dataset. -/
def read_document (events : List XmlEvent) : Except ReadError Osm :=
  read_document_loop Osm.new events

/-- The `while let ProcessingInstruction = reader.next()?` loop of
`read_xml`: every leading processing instruction is pulled and dropped,
and so is the first non-processing-instruction event, because the value
that fails the `while let` pattern is discarded with it. -/
def prologue : List XmlEvent → Except ReadError (List XmlEvent)
  | [] => .error (.err "unexpected end of stream")
  | .processingInstruction _ _ :: rest => prologue rest
  | _ :: rest => .ok rest

/-- The rest of `read_xml` after the prologue loop: expect the `osm`
start element; an end element reaches the `panic!` branch. -/
def read_xml_root (events : List XmlEvent) : Except ReadError Osm :=
  match expect_element events "osm" with
  | .error e => .error e
  | .ok (none, _) => .error (.panicked "Got unexpected end element event")
  | .ok (some _, rest) => read_document rest

/-- `read_xml`. -/
def read_xml (events : List XmlEvent) : Except ReadError Osm :=
  match prologue events with
  | .error e => .error e
  | .ok rest => read_xml_root rest

deriving instance DecidableEq for Except

/-! Helper lemmas shared by the claim theorems. -/

/-- Inserting a key makes `get` on that key return the new value. -/
theorem Tags.get_insert_self (t : Tags) (k v : String) :
    (t.insert k v).get k = some v := by
  induction t with
  | nil => simp [Tags.insert, Tags.get]
  | cons kv rest ih =>
    by_cases h : kv.1 = k
    · simp [Tags.insert, Tags.get, h]
    · simp [Tags.insert, Tags.get, h, ih]

/-- Inserting a key leaves `get` on a different key unchanged. -/
theorem Tags.get_insert_ne (t : Tags) (k k' v : String) (h : k' ≠ k) :
    (t.insert k v).get k' = t.get k' := by
  induction t with
  | nil => simp [Tags.insert, Tags.get, Ne.symm h]
  | cons kv rest ih =>
    obtain ⟨a, b⟩ := kv
    by_cases hk : a = k
    · subst hk
      simp [Tags.insert, Tags.get, Ne.symm h]
    · simp [Tags.insert, Tags.get, hk, ih]

/-- A key is a key of `t.insert k v` iff it is a key of `t` or is `k`. -/
theorem Tags.mem_keys_insert (t : Tags) (k v a : String) :
    a ∈ (t.insert k v).map Prod.fst ↔ a ∈ t.map Prod.fst ∨ a = k := by
  induction t with
  | nil => simp [Tags.insert]
  | cons kv rest ih =>
    obtain ⟨a, b⟩ := kv
    by_cases hk : a = k
    · subst hk
      simp [Tags.insert]
      tauto
    · simp [Tags.insert, hk, ih]
      tauto

/-- Insertion never introduces a duplicate key. -/
theorem Tags.insert_keys_nodup (t : Tags) (k v : String)
    (h : (t.map Prod.fst).Nodup) : ((t.insert k v).map Prod.fst).Nodup := by
  induction t with
  | nil => simp [Tags.insert]
  | cons kv rest ih =>
    obtain ⟨a, b⟩ := kv
    simp only [List.map_cons, List.nodup_cons] at h
    by_cases hk : a = k
    · subst hk
      have hi : Tags.insert ((a, b) :: rest) a v = (a, v) :: rest := by
        simp [Tags.insert]
      rw [hi]
      simp only [List.map_cons, List.nodup_cons]
      exact h
    · simp only [Tags.insert, if_neg hk, List.map_cons, List.nodup_cons]
      refine ⟨fun hmem => ?_, ih h.2⟩
      rcases (Tags.mem_keys_insert rest k v a).1 hmem with hin | heq
      · exact h.1 hin
      · exact hk heq

/-- The node attribute scan distributes over list concatenation. -/
theorem scan_node_attrs_append (l1 l2 : List (String × String))
    (acc : Option String × Option String × Option String) :
    scan_node_attrs (l1 ++ l2) acc = scan_node_attrs l2 (scan_node_attrs l1 acc) := by
  induction l1 generalizing acc with
  | nil => simp [scan_node_attrs]
  | cons kv rest ih =>
    obtain ⟨i, la, lo⟩ := acc
    simp only [List.cons_append, scan_node_attrs]
    split
    · exact ih _
    · split
      · exact ih _
      · split
        · exact ih _
        · exact ih _

/-- Attributes named neither `id`, `lat` nor `lon` never change the node
scan's result. -/
theorem scan_node_attrs_skip (l : List (String × String))
    (acc : Option String × Option String × Option String)
    (h : ∀ kv ∈ l, kv.1 ≠ "id" ∧ kv.1 ≠ "lat" ∧ kv.1 ≠ "lon") :
    scan_node_attrs l acc = acc := by
  induction l generalizing acc with
  | nil => simp [scan_node_attrs]
  | cons kv rest ih =>
    obtain ⟨h1, h2, h3⟩ := h kv (List.mem_cons_self kv rest)
    obtain ⟨i, la, lo⟩ := acc
    simp only [scan_node_attrs, if_neg h1, if_neg h2, if_neg h3]
    exact ih _ (fun x hx => h x (List.mem_cons_of_mem kv hx))

/-- If no later attribute is named `id`, the scanned id is unchanged. -/
theorem scan_node_attrs_no_id (l : List (String × String))
    (acc : Option String × Option String × Option String)
    (h : "id" ∉ l.map Prod.fst) :
    (scan_node_attrs l acc).1 = acc.1 := by
  induction l generalizing acc with
  | nil => simp [scan_node_attrs]
  | cons kv rest ih =>
    obtain ⟨a, b⟩ := kv
    simp only [List.map_cons, List.mem_cons] at h
    push_neg at h
    have ha : ¬ a = "id" := fun hh => h.1 hh.symm
    obtain ⟨i, la, lo⟩ := acc
    simp only [scan_node_attrs, if_neg ha]
    split
    · exact ih _ h.2
    · split
      · exact ih _ h.2
      · exact ih _ h.2

/-- The member attribute scan distributes over list concatenation. -/
theorem scan_member_attrs_append (l1 l2 : List (String × String))
    (acc : Option String × Option String × Option String) :
    scan_member_attrs (l1 ++ l2) acc = scan_member_attrs l2 (scan_member_attrs l1 acc) := by
  induction l1 generalizing acc with
  | nil => simp [scan_member_attrs]
  | cons kv rest ih =>
    obtain ⟨t, r, ro⟩ := acc
    simp only [List.cons_append, scan_member_attrs]
    split
    · exact ih _
    · split
      · exact ih _
      · split
        · exact ih _
        · exact ih _

/-- Attributes named neither `type`, `ref` nor `role` never change the
member scan's result. -/
theorem scan_member_attrs_skip (l : List (String × String))
    (acc : Option String × Option String × Option String)
    (h : ∀ kv ∈ l, kv.1 ≠ "type" ∧ kv.1 ≠ "ref" ∧ kv.1 ≠ "role") :
    scan_member_attrs l acc = acc := by
  induction l generalizing acc with
  | nil => simp [scan_member_attrs]
  | cons kv rest ih =>
    obtain ⟨h1, h2, h3⟩ := h kv (List.mem_cons_self kv rest)
    obtain ⟨t, r, ro⟩ := acc
    simp only [scan_member_attrs, if_neg h1, if_neg h2, if_neg h3]
    exact ih _ (fun x hx => h x (List.mem_cons_of_mem kv hx))

/-- If no later attribute is named `ref`, the scanned ref is unchanged. -/
theorem scan_member_attrs_no_ref (l : List (String × String))
    (acc : Option String × Option String × Option String)
    (h : "ref" ∉ l.map Prod.fst) :
    (scan_member_attrs l acc).2.1 = acc.2.1 := by
  induction l generalizing acc with
  | nil => simp [scan_member_attrs]
  | cons kv rest ih =>
    obtain ⟨a, b⟩ := kv
    simp only [List.map_cons, List.mem_cons] at h
    push_neg at h
    have ha : ¬ a = "ref" := fun hh => h.1 hh.symm
    obtain ⟨t, r, ro⟩ := acc
    simp only [scan_member_attrs]
    by_cases h1 : a = "type"
    · rw [if_pos h1]
      exact ih _ h.2
    · rw [if_neg h1, if_neg ha]
      by_cases h3 : a = "role"
      · rw [if_pos h3]
        exact ih _ h.2
      · rw [if_neg h3]
        exact ih _ h.2

/-- The prologue loop drops every leading processing instruction and
then the first event that is not one. -/
theorem prologue_append (pis : List XmlEvent) (e : XmlEvent)
    (rest : List XmlEvent) (hp : ∀ x ∈ pis, x.is_pi = true)
    (he : e.is_pi = false) :
    prologue (pis ++ e :: rest) = .ok rest := by
  induction pis with
  | nil =>
    cases e <;> simp_all [prologue, XmlEvent.is_pi]
  | cons x xs ih =>
    have hx := hp x (List.mem_cons_self x xs)
    have ih' := ih (fun y hy => hp y (List.mem_cons_of_mem x hy))
    cases x <;> simp_all [prologue, XmlEvent.is_pi]

/-- One step of the document loop at an end element: the error branch. -/
theorem read_document_loop_endElement (res : Osm) (rest : List XmlEvent) :
    read_document_loop res (.endElement :: rest) =
      .error (.err "expected element") := by
  unfold read_document_loop
  rfl

/-- One step of the document loop at a successfully read `node` element. -/
theorem read_document_loop_node_ok (res : Osm) (attrs : List (String × String))
    (rest : List XmlEvent) (n : Node) (rest' : List XmlEvent)
    (h : read_node attrs rest = .ok (n, rest')) :
    read_document_loop res (.startElement "node" attrs :: rest) =
      read_document_loop (res.add_node n).2 rest' := by
  conv_lhs => unfold read_document_loop
  simp only [reduceIte]
  split
  · rename_i e heq
    rw [h] at heq
    exact Except.noConfusion heq
  · rename_i nr heq
    rw [h] at heq
    injection heq with h2
    subst h2
    rfl

/-- One step of the document loop at a start element with an unknown
name: the element's start event alone is skipped. -/
theorem read_document_loop_skip (res : Osm) (name : String)
    (attrs : List (String × String)) (rest : List XmlEvent)
    (h1 : name ≠ "node") (h2 : name ≠ "way") (h3 : name ≠ "relation") :
    read_document_loop res (.startElement name attrs :: rest) =
      read_document_loop res rest := by
  conv_lhs => unfold read_document_loop
  simp [h1, h2, h3]

/-! Concrete inputs used by the claim theorems. -/

/-- Attributes of the node element of the spec's end-to-end example. -/
def c1_node_attrs : List (String × String) :=
  [("id", "1"), ("lat", "52.1"), ("lon", "13.4")]

/-- The example document's events from the node's closing tag onwards. -/
def c1_after_tag : List XmlEvent :=
  [ .endElement,
    .startElement "way" [("id", "10")],
    .startElement "nd" [("ref", "1")],
    .endElement,
    .startElement "tag" [("k", "highway"), ("v", "residential")],
    .endElement,
    .endElement,
    .startElement "relation" [("id", "100")],
    .startElement "member" [("type", "way"), ("ref", "10"), ("role", "outer")],
    .endElement,
    .endElement,
    .endElement,
    .endDocument ]

/-- The example document's events after the node's start element. -/
def c1_after_node : List XmlEvent :=
  .startElement "tag" [("k", "name"), ("v", "A")] :: .endElement :: c1_after_tag

/-- The spec's end-to-end example document as the tokenizer delivers it
(a start-document event, then the element events). -/
def c1_events : List XmlEvent :=
  .startDocument :: .startElement "osm" [] ::
    .startElement "node" c1_node_attrs :: c1_after_node

/-- The node the example's node element parses to (the latitude is the
rational 52.1, the longitude 13.4). -/
def c1_node : Node :=
  { id := 1, lat := mkRat 521 10, lon := mkRat 134 10, tags := [("name", "A")] }

/-- The embedded example node really carries latitude 52.1. -/
theorem c1_node_coords : c1_node.lat = 52.1 ∧ c1_node.lon = 13.4 := by
  constructor <;> norm_num [c1_node]

/-- C1: the claim says `read_xml` succeeds on the spec's end-to-end example
document and returns the one-node/one-way/one-relation dataset.  The code
cannot: the node reader stops at the tag child's end element, so the
node's own end element reaches the document loop, whose catch-all arm
turns it into the error `"expected element"`.  `read_xml` therefore fails
on the example (indeed on every document whose root has a child), and the
dataset described by the claim is never produced. -/
theorem read_xml_end_to_end_example :
    read_xml c1_events = .error (.err "expected element") := by
  have e1 : read_xml c1_events =
      read_document_loop Osm.new
        (.startElement "node" c1_node_attrs :: c1_after_node) := rfl
  have e2 : read_node c1_node_attrs c1_after_node = .ok (c1_node, c1_after_tag) := by
    decide
  rw [e1, read_document_loop_node_ok _ _ _ _ _ e2]
  exact read_document_loop_endElement _ _

/-- C2: the claim says unknown element names are ignored without error and
without changing the resulting dataset.  The code ignores only the
unknown element's start event: the element's end event then hits the
document loop's catch-all arm (error `"expected element"`) at top level,
and inside an entity it terminates the entity's child loop early, so
content after the unknown child is lost.  Both effects are exhibited:
`<osm><foo/></osm>` fails although the claim demands it parse like
`<osm></osm>`, and a way whose first child is `<foo/>` loses its
subsequent `nd` child (the claim demands nodes `[1]`). -/
theorem unknown_element_not_skipped :
    read_xml [.startDocument, .startElement "osm" [], .startElement "foo" [],
        .endElement, .endElement, .endDocument] =
      .error (.err "expected element") ∧
    read_way [("id", "10")]
        [.startElement "foo" [], .endElement,
         .startElement "nd" [("ref", "1")], .endElement, .endElement] =
      .ok ({ id := 10, nodes := [], tags := [] },
        [.startElement "nd" [("ref", "1")], .endElement, .endElement]) := by
  constructor
  · have e1 : read_xml [.startDocument, .startElement "osm" [],
        .startElement "foo" [], .endElement, .endElement, .endDocument] =
        read_document_loop Osm.new
          [.startElement "foo" [], .endElement, .endElement, .endDocument] := rfl
    rw [e1, read_document_loop_skip _ _ _ _ (by decide) (by decide) (by decide)]
    exact read_document_loop_endElement _ _
  · decide

/-- C4: the claim says a way's node list is exactly the `nd` refs in
declaration order (with repeats), and a relation's member list is exactly
the member children in order.  In the code, `read_nd`/`read_member` never
consume their element's end event, so that end event makes the parent's
`expect_any_element` loop return: only the first child is recorded and
the rest of the children are left unconsumed in the stream. -/
theorem way_relation_children_truncated :
    read_way [("id", "10")]
        [.startElement "nd" [("ref", "1")], .endElement,
         .startElement "nd" [("ref", "2")], .endElement, .endElement] =
      .ok ({ id := 10, nodes := [1], tags := [] },
        [.startElement "nd" [("ref", "2")], .endElement, .endElement]) ∧
    read_relation [("id", "100")]
        [.startElement "member" [("type", "way"), ("ref", "10"), ("role", "outer")],
         .endElement,
         .startElement "member" [("type", "node"), ("ref", "3"), ("role", "")],
         .endElement, .endElement] =
      .ok ({ id := 100, members := [Member.new .way 10 "outer"], tags := [] },
        [.startElement "member" [("type", "node"), ("ref", "3"), ("role", "")],
         .endElement, .endElement]) :=
  ⟨by decide, by decide⟩

/-- C7 counterexample: the claim says `read_xml` discards only the leading
processing instructions and then accepts a start element named `osm`.  On
`[PI, <osm>, end-of-document]` the event after the processing instruction
is exactly the `osm` start element, yet `read_xml` fails: the `while let`
prologue also consumed and discarded that start element, so the following
end-of-document event is what reaches `expect_element`. -/
theorem read_xml_discards_first_non_pi_event :
    read_xml [.processingInstruction "x" "", .startElement "osm" [], .endDocument] =
      .error (.err "expected element") ∧
    (List.dropWhile XmlEvent.is_pi
        [.processingInstruction "x" "", .startElement "osm" [], .endDocument]).head? =
      some (.startElement "osm" []) :=
  ⟨by decide, by decide⟩

/-- C7 (amended): `read_xml` consumes and discards the leading
processing-instruction events and additionally the first event that is
not one (with the real tokenizer, the start-document event); the event
after that must be a start element named `osm` — a start element with a
different name or a non-element event is a structural error, while an end
element at that position triggers a panic rather than a returned error. -/
theorem read_xml_prologue_and_root (pis : List XmlEvent) (e : XmlEvent)
    (rest : List XmlEvent) (name : String) (attrs : List (String × String))
    (s d : String)
    (hp : ∀ x ∈ pis, x.is_pi = true) (he : e.is_pi = false) :
    read_xml (pis ++ e :: rest) = read_xml_root rest ∧
    read_xml_root (.startElement "osm" attrs :: rest) = read_document rest ∧
    (name ≠ "osm" →
      read_xml_root (.startElement name attrs :: rest) =
        .error (.err "expected element 'osm'")) ∧
    read_xml_root (.endElement :: rest) =
      .error (.panicked "Got unexpected end element event") ∧
    read_xml_root (.startDocument :: rest) = .error (.err "expected element") ∧
    read_xml_root (.processingInstruction s d :: rest) =
      .error (.err "expected element") ∧
    read_xml_root (.characters s :: rest) = .error (.err "expected element") ∧
    read_xml_root (.endDocument :: rest) = .error (.err "expected element") := by
  refine ⟨?_, rfl, ?_, rfl, rfl, rfl, rfl, rfl⟩
  · unfold read_xml
    rw [prologue_append pis e rest hp he]
  · intro hn
    simp [read_xml_root, expect_element, hn]

/-- Leading processing instructions in the C7 witness stream. -/
def c7_pis : List XmlEvent := [.processingInstruction "p" "d"]

/-- Events after the discarded start-document event in the C7 witness. -/
def c7_rest : List XmlEvent := [.endDocument]

/-- Witness for the amended C7 theorem at concrete inputs. -/
theorem read_xml_prologue_and_root_witness :
    read_xml (c7_pis ++ XmlEvent.startDocument :: c7_rest) = read_xml_root c7_rest ∧
    read_xml_root (XmlEvent.startElement "foo" [] :: c7_rest) =
      .error (.err "expected element 'osm'") :=
  ⟨(read_xml_prologue_and_root c7_pis XmlEvent.startDocument
      c7_rest "foo" [] "s" "d" (by decide) (by decide)).1,
   (read_xml_prologue_and_root c7_pis XmlEvent.startDocument
      c7_rest "foo" [] "s" "d" (by decide) (by decide)).2.2.1 (by decide)⟩

/-- C3: inserting an entity whose id already occurs in the corresponding
collection returns `false` and leaves the collection unchanged (the
first-inserted entity with all its fields is kept, whatever the other
fields of the new entity); a not-yet-present id is appended and the call
returns `true`. -/
theorem add_duplicate_id_first_wins (osm : Osm) (n : Node) (w : Way)
    (r : Relation) :
    ((∃ n0 ∈ osm.nodes, n0.id = n.id) → osm.add_node n = (false, osm)) ∧
    ((∀ n0 ∈ osm.nodes, n0.id ≠ n.id) →
      osm.add_node n = (true, { osm with nodes := osm.nodes ++ [n] })) ∧
    ((∃ w0 ∈ osm.ways, w0.id = w.id) → osm.add_way w = (false, osm)) ∧
    ((∀ w0 ∈ osm.ways, w0.id ≠ w.id) →
      osm.add_way w = (true, { osm with ways := osm.ways ++ [w] })) ∧
    ((∃ r0 ∈ osm.relations, r0.id = r.id) → osm.add_relation r = (false, osm)) ∧
    ((∀ r0 ∈ osm.relations, r0.id ≠ r.id) →
      osm.add_relation r = (true, { osm with relations := osm.relations ++ [r] })) := by
  refine ⟨?_, ?_, ?_, ?_, ?_, ?_⟩ <;> intro h
  · have ha : osm.nodes.any (fun x => x.id == n.id) = true := by
      rw [List.any_eq_true]
      obtain ⟨n0, hn0, hid⟩ := h
      exact ⟨n0, hn0, by simp [hid]⟩
    simp [Osm.add_node, ha]
  · have ha : osm.nodes.any (fun x => x.id == n.id) = false := by
      rw [List.any_eq_false]
      intro n0 hn0
      simp [h n0 hn0]
    simp [Osm.add_node, ha]
  · have ha : osm.ways.any (fun x => x.id == w.id) = true := by
      rw [List.any_eq_true]
      obtain ⟨w0, hw0, hid⟩ := h
      exact ⟨w0, hw0, by simp [hid]⟩
    simp [Osm.add_way, ha]
  · have ha : osm.ways.any (fun x => x.id == w.id) = false := by
      rw [List.any_eq_false]
      intro w0 hw0
      simp [h w0 hw0]
    simp [Osm.add_way, ha]
  · have ha : osm.relations.any (fun x => x.id == r.id) = true := by
      rw [List.any_eq_true]
      obtain ⟨r0, hr0, hid⟩ := h
      exact ⟨r0, hr0, by simp [hid]⟩
    simp [Osm.add_relation, ha]
  · have ha : osm.relations.any (fun x => x.id == r.id) = false := by
      rw [List.any_eq_false]
      intro r0 hr0
      simp [h r0 hr0]
    simp [Osm.add_relation, ha]

/-- A dataset with one node (id 1), one way (id 2), one relation (id 3),
used by the C3 and C10 witnesses. -/
def osm_example : Osm :=
  { nodes := [{ id := 1, lat := 0, lon := 0, tags := [] }],
    ways := [{ id := 2, nodes := [5], tags := [] }],
    relations := [{ id := 3, members := [], tags := [] }] }

/-- A node with the already-present id 1 but different coordinates and
tags. -/
def dup_node : Node := { id := 1, lat := 9, lon := 9, tags := [("a", "b")] }

/-- A node with a fresh id. -/
def fresh_node : Node := { id := 7, lat := 0, lon := 0, tags := [] }

/-- Witness for the C3 theorem at concrete inputs. -/
theorem add_duplicate_id_first_wins_witness :
    osm_example.add_node dup_node = (false, osm_example) ∧
    osm_example.add_node fresh_node =
      (true, { osm_example with nodes := osm_example.nodes ++ [fresh_node] }) :=
  ⟨(add_duplicate_id_first_wins osm_example dup_node
        { id := 2, nodes := [], tags := [] } { id := 3, members := [], tags := [] }).1
      ⟨{ id := 1, lat := 0, lon := 0, tags := [] }, by decide, by decide⟩,
   (add_duplicate_id_first_wins osm_example fresh_node
        { id := 2, nodes := [], tags := [] } { id := 3, members := [], tags := [] }).2.1
      (by decide)⟩

/-- C5 counterexample: parsing a node with `lat="abc"` does fail, but the
error's message is only the float coercion failure's description; it
contains neither the attribute name `lat` nor the raw string `abc`, so
the error does not carry them as the claim states. -/
theorem read_node_bad_lat_message :
    read_node [("id", "1"), ("lat", "abc"), ("lon", "2")] [] =
      .error (.err "invalid float literal") ∧
    ¬ List.IsInfix "lat".data "invalid float literal".data ∧
    ¬ List.IsInfix "abc".data "invalid float literal".data :=
  ⟨by decide, by decide, by decide⟩

/-- C5 (amended): a node whose `lat` attribute fails float coercion makes
parsing fail with an error carrying only the coercion failure's
description; a node missing its `lat` attribute makes parsing fail with
an error naming the missing attribute. -/
theorem read_node_attr_error_reporting (i la lo : String) (ev : List XmlEvent)
    (idv : Int) (e : String)
    (hid : parseI64 i = .ok idv) (hlat : parseF64 la = .error e) :
    read_node [("id", i), ("lat", la), ("lon", lo)] ev = .error (.err e) ∧
    read_node [("id", i), ("lon", lo)] ev =
      .error (.err "missing 'lat' attribute") := by
  have hscan : scan_node_attrs [("id", i), ("lat", la), ("lon", lo)]
      (none, none, none) = (some i, some la, some lo) := by
    simp [scan_node_attrs]
  have hscan2 : scan_node_attrs [("id", i), ("lon", lo)]
      (none, none, none) = (some i, none, some lo) := by
    simp [scan_node_attrs]
  constructor
  · simp [read_node, hscan, from_attr, hid, hlat]
  · simp [read_node, hscan2, from_attr, hid]

/-- Witness for the amended C5 theorem at concrete inputs. -/
theorem read_node_attr_error_reporting_witness :
    read_node [("id", "1"), ("lat", "abc"), ("lon", "2")] [] =
      .error (.err "invalid float literal") ∧
    read_node [("id", "1"), ("lon", "2")] [] =
      .error (.err "missing 'lat' attribute") :=
  ⟨(read_node_attr_error_reporting "1" "abc" "2" [] 1 "invalid float literal"
      (by decide) (by decide)).1,
   (read_node_attr_error_reporting "1" "abc" "2" [] 1 "invalid float literal"
      (by decide) (by decide)).2⟩

/-- C6: a member's `type` attribute must be one of the three enumerated
kind strings — any other string fails with the invalid-member-type
(enumerated-value) error carrying the raw string; `type`, `ref` and
`role` are all mandatory (a missing one is a missing-attribute error);
the role may be the empty string and is stored verbatim. -/
theorem read_member_validation (ts rs ro : String) (idv : Int)
    (mt : MemberType) :
    (ts ≠ "way" → ts ≠ "node" → ts ≠ "relation" →
      read_member [("type", ts), ("ref", rs), ("role", ro)] =
        .error (.err ("invalid member type '" ++ ts ++ "'"))) ∧
    (read_member [("ref", rs), ("role", ro)] =
      .error (.err "missing 'type' attribute")) ∧
    (MemberType.from_str ts = .ok mt →
      read_member [("type", ts), ("role", ro)] =
        .error (.err "missing 'ref' attribute")) ∧
    (MemberType.from_str ts = .ok mt → parseI64 rs = .ok idv →
      read_member [("type", ts), ("ref", rs)] =
        .error (.err "missing 'role' attribute")) ∧
    (MemberType.from_str ts = .ok mt → parseI64 rs = .ok idv →
      read_member [("type", ts), ("ref", rs), ("role", ro)] =
        .ok (Member.new mt idv ro)) := by
  have hs1 : scan_member_attrs [("type", ts), ("ref", rs), ("role", ro)]
      (none, none, none) = (some ts, some rs, some ro) := by
    simp [scan_member_attrs]
  have hs2 : scan_member_attrs [("ref", rs), ("role", ro)]
      (none, none, none) = (none, some rs, some ro) := by
    simp [scan_member_attrs]
  have hs3 : scan_member_attrs [("type", ts), ("role", ro)]
      (none, none, none) = (some ts, none, some ro) := by
    simp [scan_member_attrs]
  have hs4 : scan_member_attrs [("type", ts), ("ref", rs)]
      (none, none, none) = (some ts, some rs, none) := by
    simp [scan_member_attrs]
  refine ⟨?_, ?_, ?_, ?_, ?_⟩
  · intro h1 h2 h3
    simp [read_member, hs1, from_attr, MemberType.from_str, h1, h2, h3]
  · simp [read_member, hs2, from_attr]
  · intro hmt
    simp [read_member, hs3, from_attr, hmt]
  · intro hmt hrs
    simp [read_member, hs4, from_attr, hmt, hrs]
  · intro hmt hrs
    simp [read_member, hs1, from_attr, hmt, hrs, parseString]

/-- Witness for the C6 theorem at concrete inputs, with an empty role in
the success case. -/
theorem read_member_validation_witness :
    read_member [("type", "area"), ("ref", "1"), ("role", "r")] =
      .error (.err "invalid member type 'area'") ∧
    read_member [("ref", "1"), ("role", "r")] =
      .error (.err "missing 'type' attribute") ∧
    read_member [("type", "way"), ("role", "r")] =
      .error (.err "missing 'ref' attribute") ∧
    read_member [("type", "way"), ("ref", "10")] =
      .error (.err "missing 'role' attribute") ∧
    read_member [("type", "way"), ("ref", "10"), ("role", "")] =
      .ok (Member.new .way 10 "") :=
  ⟨(read_member_validation "area" "1" "r" 0 .way).1 (by decide) (by decide)
      (by decide),
   (read_member_validation "area" "1" "r" 0 .way).2.1,
   (read_member_validation "way" "1" "r" 0 .way).2.2.1 (by decide),
   (read_member_validation "way" "10" "" 10 .way).2.2.2.1 (by decide) (by decide),
   (read_member_validation "way" "10" "" 10 .way).2.2.2.2 (by decide) (by decide)⟩

/-- C8: tag insertion is last-write-wins — after inserting `v1` then `v2`
under key `k`, `get k` returns `v2`, `get` on a different key is
unaffected, and insertion never introduces a duplicate key. -/
theorem tags_last_write_wins (t : Tags) (k k' v1 v2 : String) (hne : k' ≠ k) :
    ((t.insert k v1).insert k v2).get k = some v2 ∧
    ((t.insert k v1).insert k v2).get k' = t.get k' ∧
    ((t.map Prod.fst).Nodup →
      (((t.insert k v1).insert k v2).map Prod.fst).Nodup) :=
  ⟨Tags.get_insert_self _ _ _,
   by rw [Tags.get_insert_ne _ _ _ _ hne, Tags.get_insert_ne _ _ _ _ hne],
   fun h => Tags.insert_keys_nodup _ _ _ (Tags.insert_keys_nodup _ _ _ h)⟩

/-- A one-entry tag store used by the C8 witness. -/
def tags_example : Tags := [("x", "y")]

/-- Witness for the C8 theorem at concrete inputs. -/
theorem tags_last_write_wins_witness :
    ((tags_example.insert "a" "1").insert "a" "2").get "a" = some "2" ∧
    ((tags_example.insert "a" "1").insert "a" "2").get "x" =
      tags_example.get "x" ∧
    (((tags_example.insert "a" "1").insert "a" "2").map Prod.fst).Nodup :=
  ⟨(tags_last_write_wins tags_example "a" "x" "1" "2" (by decide)).1,
   (tags_last_write_wins tags_example "a" "x" "1" "2" (by decide)).2.1,
   (tags_last_write_wins tags_example "a" "x" "1" "2" (by decide)).2.2 (by decide)⟩

/-- C9: the attribute scans ignore unrecognized attribute names, and when
an attribute name occurs more than once the last occurrence's value is
the one kept (shown for the node and member scans, and end to end for a
node carrying `id="1" id="2"`, which parses with id 2). -/
theorem attr_scan_last_occurrence_wins (pre post : List (String × String))
    (name v : String) (acc : Option String × Option String × Option String) :
    ((name ≠ "id" ∧ name ≠ "lat" ∧ name ≠ "lon") →
      scan_node_attrs (pre ++ [(name, v)]) acc = scan_node_attrs pre acc) ∧
    ("id" ∉ post.map Prod.fst →
      (scan_node_attrs (pre ++ ("id", v) :: post) acc).1 = some v) ∧
    ((name ≠ "type" ∧ name ≠ "ref" ∧ name ≠ "role") →
      scan_member_attrs (pre ++ [(name, v)]) acc = scan_member_attrs pre acc) ∧
    ("ref" ∉ post.map Prod.fst →
      (scan_member_attrs (pre ++ ("ref", v) :: post) acc).2.1 = some v) ∧
    read_node [("id", "1"), ("id", "2"), ("lat", "0"), ("lon", "0")]
        [.endElement] =
      .ok ({ id := 2, lat := 0, lon := 0, tags := [] }, []) := by
  refine ⟨?_, ?_, ?_, ?_, by decide⟩
  · rintro ⟨h1, h2, h3⟩
    rw [scan_node_attrs_append]
    exact scan_node_attrs_skip _ _ (by simp [h1, h2, h3])
  · intro h
    rw [scan_node_attrs_append]
    rcases hpre : scan_node_attrs pre acc with ⟨i1, la1, lo1⟩
    have hstep : scan_node_attrs (("id", v) :: post) (i1, la1, lo1) =
        scan_node_attrs post (some v, la1, lo1) := by
      simp [scan_node_attrs]
    rw [hstep, scan_node_attrs_no_id _ _ h]
  · rintro ⟨h1, h2, h3⟩
    rw [scan_member_attrs_append]
    exact scan_member_attrs_skip _ _ (by simp [h1, h2, h3])
  · intro h
    rw [scan_member_attrs_append]
    rcases hpre : scan_member_attrs pre acc with ⟨t1, r1, ro1⟩
    have hstep : scan_member_attrs (("ref", v) :: post) (t1, r1, ro1) =
        scan_member_attrs post (t1, some v, ro1) := by
      simp [scan_member_attrs]
    rw [hstep, scan_member_attrs_no_ref _ _ h]

/-- Witness for the C9 theorem at concrete inputs. -/
theorem attr_scan_last_occurrence_wins_witness :
    scan_node_attrs ([("id", "9")] ++ [("foo", "2")]) (none, none, none) =
      scan_node_attrs [("id", "9")] (none, none, none) ∧
    (scan_node_attrs ([("id", "9")] ++ ("id", "2") :: [("lat", "1")])
        (none, none, none)).1 = some "2" ∧
    scan_member_attrs ([("ref", "9")] ++ [("foo", "2")]) (none, none, none) =
      scan_member_attrs [("ref", "9")] (none, none, none) ∧
    (scan_member_attrs ([("ref", "9")] ++ ("ref", "2") :: [("type", "way")])
        (none, none, none)).2.1 = some "2" ∧
    read_node [("id", "1"), ("id", "2"), ("lat", "0"), ("lon", "0")]
        [.endElement] =
      .ok ({ id := 2, lat := 0, lon := 0, tags := [] }, []) :=
  ⟨(attr_scan_last_occurrence_wins [("id", "9")] [("lat", "1")] "foo" "2"
      (none, none, none)).1 (by decide),
   (attr_scan_last_occurrence_wins [("id", "9")] [("lat", "1")] "foo" "2"
      (none, none, none)).2.1 (by decide),
   (attr_scan_last_occurrence_wins [("ref", "9")] [("type", "way")] "foo" "2"
      (none, none, none)).2.2.1 (by decide),
   (attr_scan_last_occurrence_wins [("ref", "9")] [("type", "way")] "foo" "2"
      (none, none, none)).2.2.2.1 (by decide),
   (attr_scan_last_occurrence_wins [("ref", "9")] [("type", "way")] "foo" "2"
      (none, none, none)).2.2.2.2⟩

/-- C10: `has_node`/`has_way`/`has_relation` agree with the corresponding
`get_*` returning `some`, and any entity returned by `get_*` carries the
queried id. -/
theorem has_get_agreement (osm : Osm) (id : Int) :
    (osm.has_node id = true ↔ (osm.get_node id).isSome = true) ∧
    (∀ n, osm.get_node id = some n → n.id = id) ∧
    (osm.has_way id = true ↔ (osm.get_way id).isSome = true) ∧
    (∀ w, osm.get_way id = some w → w.id = id) ∧
    (osm.has_relation id = true ↔ (osm.get_relation id).isSome = true) ∧
    (∀ r, osm.get_relation id = some r → r.id = id) := by
  refine ⟨?_, ?_, ?_, ?_, ?_, ?_⟩
  · simp [Osm.has_node, Osm.get_node, List.any_eq_true, List.find?_isSome]
  · intro n hn
    simpa using List.find?_some hn
  · simp [Osm.has_way, Osm.get_way, List.any_eq_true, List.find?_isSome]
  · intro w hw
    simpa using List.find?_some hw
  · simp [Osm.has_relation, Osm.get_relation, List.any_eq_true,
      List.find?_isSome]
  · intro r hr
    simpa using List.find?_some hr

/-- Witness for the C10 theorem at concrete inputs. -/
theorem has_get_agreement_witness :
    (osm_example.has_node 1 = true ↔ (osm_example.get_node 1).isSome = true) ∧
    ({ id := 1, lat := 0, lon := 0, tags := [] } : Node).id = 1 ∧
    (osm_example.has_way 2 = true ↔ (osm_example.get_way 2).isSome = true) ∧
    ({ id := 2, nodes := [5], tags := [] } : Way).id = 2 ∧
    (osm_example.has_relation 3 = true ↔
      (osm_example.get_relation 3).isSome = true) ∧
    ({ id := 3, members := [], tags := [] } : Relation).id = 3 :=
  ⟨(has_get_agreement osm_example 1).1,
   (has_get_agreement osm_example 1).2.1
     { id := 1, lat := 0, lon := 0, tags := [] } (by decide),
   (has_get_agreement osm_example 2).2.2.1,
   (has_get_agreement osm_example 2).2.2.2.1
     { id := 2, nodes := [5], tags := [] } (by decide),
   (has_get_agreement osm_example 3).2.2.2.2.1,
   (has_get_agreement osm_example 3).2.2.2.2.2
     { id := 3, members := [], tags := [] } (by decide)⟩
